import Mathlib

/-!
Verification of the Teleinfo group decoder of `pitinfo-rs`
(`src/pitinfo-parser/src/lib.rs`).

The decoder takes one raw text record and produces a typed `Message`, a
"recognized but ignored" result, or a `ParseError`.  The embedding below is a
direct shallow translation of the Rust source: records are lists of
characters, machine integers are `Nat` with the width bound enforced by the
checked numeric parser, fallible code returns `Except`, and the possibility of
a panic (`unwrap`, `panic!`) is modelled by an outer `Option` whose `none`
value stands for the panic.
-/

set_option maxHeartbeats 1600000

namespace PitInfo

/-- Wire records are modelled as lists of characters, mirroring the `&str`
input of `parse_group`. -/
abbrev Str := List Char

/-- Day colors of the Tempo tariff (`DayColor` in the source). -/
inductive DayColor
  | Blue
  | White
  | Red
deriving DecidableEq, Repr

/-- Tariff options (`TariffOptionValue` in the source). -/
inductive TariffOptionValue
  | Base
  | OffPeakHours
  | EJP
  | Tempo
deriving DecidableEq, Repr

/-- Schedule group codes (`HHPHCValue` in the source). -/
inductive HHPHCValue
  | A
  | C
  | D
  | E
  | Y
deriving DecidableEq, Repr

/-- Hourly tariff periods (`HourlyTarifPeriod` in the source). -/
inductive HourlyTarifPeriod
  | OffPeakHours
  | PeakHours
deriving DecidableEq, Repr

/-- Tariff period (`TarifPeriod` in the source). -/
structure TarifPeriod where
  hour : HourlyTarifPeriod
  day_color : Option DayColor
deriving DecidableEq, Repr

/-- Decoded messages (`Message` in the source).  The `u8`, `u16` and `u32`
payloads are modelled as `Nat`; the width bound is enforced by the checked
numeric parser, which rejects any value above the target maximum. -/
inductive Message
  | ADCO
  | TariffOption (v : TariffOptionValue)
  | Tomorrow (color : Option DayColor)
  | InstantaneousPower (phase : Nat) (value : Nat)
  | Index (period : TarifPeriod) (value : Nat)
  | ApparentPower (value : Nat)
  | HHPHC (v : HHPHCValue)
  | CurrentTariffPeriod (period : TarifPeriod)
deriving DecidableEq, Repr

/-- Parse errors (`ParseError` in the source). -/
inductive ParseError
  | GroupError (group : Str)
  | FieldError (field : Str) (data : Str)
  | DayColorError (code : Str)
  | OffPeakHoursError (code : Str)
  | ControlCharacterError
deriving DecidableEq, Repr

/-- Decidable equality on `Except`, so that concrete runs of the decoder can
be checked by `decide`. -/
instance instDecEqExcept {ε α : Type} [DecidableEq ε] [DecidableEq α] :
    DecidableEq (Except ε α)
  | Except.ok a, Except.ok b =>
    if h : a = b then isTrue (congrArg Except.ok h)
    else isFalse (fun hh => h (Except.ok.inj hh))
  | Except.error a, Except.error b =>
    if h : a = b then isTrue (congrArg Except.error h)
    else isFalse (fun hh => h (Except.error.inj hh))
  | Except.ok _, Except.error _ => isFalse (fun hh => Except.noConfusion hh)
  | Except.error _, Except.ok _ => isFalse (fun hh => Except.noConfusion hh)

/-! Field-code literals of the regex alternation. -/

/-- Field code `ADCO`. -/
def cADCO : Str := ['A', 'D', 'C', 'O']

/-- Field code `OPTARIF`. -/
def cOPTARIF : Str := ['O', 'P', 'T', 'A', 'R', 'I', 'F']

/-- Field code `ISOUSC`. -/
def cISOUSC : Str := ['I', 'S', 'O', 'U', 'S', 'C']

/-- Field code `BBRHCJB`. -/
def cBBRHCJB : Str := ['B', 'B', 'R', 'H', 'C', 'J', 'B']

/-- Field code `BBRHCJW`. -/
def cBBRHCJW : Str := ['B', 'B', 'R', 'H', 'C', 'J', 'W']

/-- Field code `BBRHCJR`. -/
def cBBRHCJR : Str := ['B', 'B', 'R', 'H', 'C', 'J', 'R']

/-- Field code `BBRHPJB`. -/
def cBBRHPJB : Str := ['B', 'B', 'R', 'H', 'P', 'J', 'B']

/-- Field code `BBRHPJW`. -/
def cBBRHPJW : Str := ['B', 'B', 'R', 'H', 'P', 'J', 'W']

/-- Field code `BBRHPJR`. -/
def cBBRHPJR : Str := ['B', 'B', 'R', 'H', 'P', 'J', 'R']

/-- Field code `IMAX1`. -/
def cIMAX1 : Str := ['I', 'M', 'A', 'X', '1']

/-- Field code `IMAX2`. -/
def cIMAX2 : Str := ['I', 'M', 'A', 'X', '2']

/-- Field code `IMAX3`. -/
def cIMAX3 : Str := ['I', 'M', 'A', 'X', '3']

/-- Field code `PTEC`. -/
def cPTEC : Str := ['P', 'T', 'E', 'C']

/-- Field code `DEMAIN`. -/
def cDEMAIN : Str := ['D', 'E', 'M', 'A', 'I', 'N']

/-- Field code `IINST1`. -/
def cIINST1 : Str := ['I', 'I', 'N', 'S', 'T', '1']

/-- Field code `IINST2`. -/
def cIINST2 : Str := ['I', 'I', 'N', 'S', 'T', '2']

/-- Field code `IINST3`. -/
def cIINST3 : Str := ['I', 'I', 'N', 'S', 'T', '3']

/-- Field code `PMAX`. -/
def cPMAX : Str := ['P', 'M', 'A', 'X']

/-- Field code `PAPP`. -/
def cPAPP : Str := ['P', 'A', 'P', 'P']

/-- Field code `HHPHC`. -/
def cHHPHC : Str := ['H', 'H', 'P', 'H', 'C']

/-- Field code `MOTDETAT`. -/
def cMOTDETAT : Str := ['M', 'O', 'T', 'D', 'E', 'T', 'A', 'T']

/-- Field code `PPOT`. -/
def cPPOT : Str := ['P', 'P', 'O', 'T']

/-- Characters matched by the separator character class of the record regex.
The source pattern writes the class `[ U+0009]`, which in regex syntax
denotes the set containing the space, `U`, `+`, `0` and `9` characters: the
text `U+0009` inside a character class stands for its literal characters, not
for the tab code point. -/
def sepChar (c : Char) : Bool :=
  c = ' ' || c = 'U' || c = '+' || c = '0' || c = '9'

/-- Whitelisted field codes, in the order of the regex alternation of
`parse_group` (`IMAX[123]` occurs twice in the source pattern). -/
def whitelist : List Str :=
  [cADCO, cOPTARIF, cISOUSC,
   cBBRHCJB, cBBRHCJW, cBBRHCJR, cBBRHPJB, cBBRHPJW, cBBRHPJR,
   cIMAX1, cIMAX2, cIMAX3,
   cPTEC, cDEMAIN,
   cIINST1, cIINST2, cIINST3,
   cIMAX1, cIMAX2, cIMAX3,
   cPMAX, cPAPP, cHHPHC, cMOTDETAT, cPPOT]

/-- Splits a list into all elements but the last two together with those last
two elements; `none` when the list has fewer than two elements. -/
def splitLast2 : Str → Option (Str × Char × Char)
  | [] => none
  | [_] => none
  | [a, b] => some ([], a, b)
  | a :: rest =>
    match splitLast2 rest with
    | some (d, s, k) => some (a :: d, s, k)
    | none => none

/-- Matches the record against one alternative of the anchored pattern
`(CODE)[ U+0009](.+)[ U+0009](.)` used by `parse_group`: the code must be a
prefix of the record, followed by a separator character, a non-empty data
capture free of newlines (the `.` metacharacter excludes the newline), a
second separator character and one final non-newline control character ending
the record.  The tail `[ U+0009](.)` has fixed length two, so the greedy
`(.+)` capture is forced and the match is deterministic. -/
def captureOne (code g : Str) : Option (Str × Str × Char) :=
  if g.take code.length = code then
    match g.drop code.length with
    | [] => none
    | s1 :: rest =>
      if sepChar s1 then
        match splitLast2 rest with
        | some (data, s2, ctrl) =>
          if data ≠ [] && data.all (fun c => c ≠ '\n') && sepChar s2 && ctrl ≠ '\n' then
            some (code, data, ctrl)
          else none
        | none => none
      else none
  else none

/-- Embedding of `RE.captures(group)` for the anchored record regex: the codes
of the alternation are mutually prefix-free, so at most one alternative can
apply to a given record and leftmost-first alternation reduces to trying the
alternatives in order. -/
def reCaptures (g : Str) : Option (Str × Str × Char) :=
  whitelist.findSome? (fun code => captureOne code g)

/-- Maximal value of `u8`. -/
def u8Max : Nat := 255

/-- Maximal value of `u16`. -/
def u16Max : Nat := 65535

/-- Maximal value of `u32`. -/
def u32Max : Nat := 4294967295

/-- Digit-accumulation loop of Rust `from_str_radix` at radix 10 for an
unsigned target: each step multiplies the accumulator by ten and adds the
digit with checked arithmetic, so a value above the width maximum is a
`PosOverflow` error (`none`), and a non-digit character is an `InvalidDigit`
error (`none`). -/
def parseDigitsAux (maxv : Nat) : Str → Nat → Option Nat
  | [], acc => some acc
  | c :: rest, acc =>
    if c.isDigit then
      if acc * 10 + (c.toNat - 48) ≤ maxv then
        parseDigitsAux maxv rest (acc * 10 + (c.toNat - 48))
      else none
    else none

/-- Embedding of `str::parse::<uN>()`, that is Rust `from_str_radix` at radix
10 for an unsigned integer type: the empty string is an error, a single
leading `+` is stripped (a bare `+` is an error), a leading `-` on an
unsigned type falls through to the digit loop and fails there as an invalid
digit, and at least one digit is required. -/
def rustParseUnsigned (maxv : Nat) (s : Str) : Option Nat :=
  match s with
  | [] => none
  | c :: rest =>
    if c = '+' then
      if rest = [] then none else parseDigitsAux maxv rest 0
    else parseDigitsAux maxv (c :: rest) 0

/-- Day-color half of `parse_period`: examines the character at offset 3 of
the fragment (`code.chars().nth(3).unwrap()` in the source); a missing
character models the `unwrap` panic as `none`. -/
def parsePeriodDay (code : Str) (hour : HourlyTarifPeriod) :
    Option (Except ParseError TarifPeriod) :=
  match code.get? 3 with
  | none => none
  | some d =>
    if d = 'B' then some (Except.ok ⟨hour, some DayColor.Blue⟩)
    else if d = 'W' then some (Except.ok ⟨hour, some DayColor.White⟩)
    else if d = 'R' then some (Except.ok ⟨hour, some DayColor.Red⟩)
    else some (Except.error (ParseError.DayColorError code))

/-- Embedding of `parse_period`.  The outer `Option` models panics: the source
unwraps `chars().nth(1)` and `chars().nth(3)`, which panic when the fragment
is too short, and `none` stands for that panic.  The hour check runs first and
returns `OffPeakHoursError` before the day-color character is ever read. -/
def parse_period (code : Str) : Option (Except ParseError TarifPeriod) :=
  match code.get? 1 with
  | none => none
  | some h =>
    if h = 'C' then parsePeriodDay code HourlyTarifPeriod.OffPeakHours
    else if h = 'P' then parsePeriodDay code HourlyTarifPeriod.PeakHours
    else some (Except.error (ParseError.OffPeakHoursError code))

/-- Data literal `HCJB` of the `PTEC` arm. -/
def sHCJB : Str := ['H', 'C', 'J', 'B']

/-- Data literal `HCJW` of the `PTEC` arm. -/
def sHCJW : Str := ['H', 'C', 'J', 'W']

/-- Data literal `HCJR` of the `PTEC` arm. -/
def sHCJR : Str := ['H', 'C', 'J', 'R']

/-- Data literal `HPJB` of the `PTEC` arm. -/
def sHPJB : Str := ['H', 'P', 'J', 'B']

/-- Data literal `HPJW` of the `PTEC` arm. -/
def sHPJW : Str := ['H', 'P', 'J', 'W']

/-- Data literal `HPJR` of the `PTEC` arm. -/
def sHPJR : Str := ['H', 'P', 'J', 'R']

/-- Data literal `BASE` of the `OPTARIF` arm. -/
def sBASE : Str := ['B', 'A', 'S', 'E']

/-- Data literal `HC..` of the `OPTARIF` arm. -/
def sHCdots : Str := ['H', 'C', '.', '.']

/-- Data literal `EJP.` of the `OPTARIF` arm. -/
def sEJPdot : Str := ['E', 'J', 'P', '.']

/-- Data prefix `BBR` of the `OPTARIF` arm. -/
def sBBR : Str := ['B', 'B', 'R']

/-- Data literal `----` of the `DEMAIN` arm. -/
def sDashes : Str := ['-', '-', '-', '-']

/-- Data literal `BLEU` of the `DEMAIN` arm. -/
def sBLEU : Str := ['B', 'L', 'E', 'U']

/-- Data literal `BLAN` of the `DEMAIN` arm. -/
def sBLAN : Str := ['B', 'L', 'A', 'N']

/-- Data literal `ROUG` of the `DEMAIN` arm. -/
def sROUG : Str := ['R', 'O', 'U', 'G']

/-- Per-code dispatch of `parse_group` after a successful regex match: a
direct transcription of the `match code` expression of the source.  The outer
`Option` models panics: `none` stands both for the final `panic!` arm and for
the `unwrap` calls inside the `IINST` arm; both are proved unreachable
below.  As in the source, the `BBRH*` arm parses the data first and only then
derives the period from `&code[3..]`, propagating its error with `?`. -/
def dispatch (code data : Str) : Option (Except ParseError (Option Message)) :=
  if code = cADCO then some (Except.ok (some Message.ADCO))
  else if code = cBBRHCJB ∨ code = cBBRHCJW ∨ code = cBBRHCJR ∨
      code = cBBRHPJB ∨ code = cBBRHPJW ∨ code = cBBRHPJR then
    match rustParseUnsigned u32Max data with
    | some v =>
      match parse_period (code.drop 3) with
      | some (Except.ok p) => some (Except.ok (some (Message.Index p v)))
      | some (Except.error e) => some (Except.error e)
      | none => none
    | none => some (Except.error (ParseError.FieldError code data))
  else if code = cPTEC then
    if data = sHCJB then
      some (Except.ok (some (Message.CurrentTariffPeriod
        ⟨HourlyTarifPeriod.OffPeakHours, some DayColor.Blue⟩)))
    else if data = sHCJW then
      some (Except.ok (some (Message.CurrentTariffPeriod
        ⟨HourlyTarifPeriod.OffPeakHours, some DayColor.White⟩)))
    else if data = sHCJR then
      some (Except.ok (some (Message.CurrentTariffPeriod
        ⟨HourlyTarifPeriod.OffPeakHours, some DayColor.Red⟩)))
    else if data = sHPJB then
      some (Except.ok (some (Message.CurrentTariffPeriod
        ⟨HourlyTarifPeriod.PeakHours, some DayColor.Blue⟩)))
    else if data = sHPJW then
      some (Except.ok (some (Message.CurrentTariffPeriod
        ⟨HourlyTarifPeriod.PeakHours, some DayColor.White⟩)))
    else if data = sHPJR then
      some (Except.ok (some (Message.CurrentTariffPeriod
        ⟨HourlyTarifPeriod.PeakHours, some DayColor.Red⟩)))
    else some (Except.error (ParseError.FieldError cPTEC data))
  else if code = cIINST1 ∨ code = cIINST2 ∨ code = cIINST3 then
    match rustParseUnsigned u8Max data with
    | some level =>
      match code.get? 5 with
      | some c =>
        if c.isDigit then
          some (Except.ok (some (Message.InstantaneousPower (c.toNat - 48) level)))
        else none
      | none => none
    | none => some (Except.error (ParseError.FieldError code data))
  else if code = cOPTARIF then
    if data = sBASE then
      some (Except.ok (some (Message.TariffOption TariffOptionValue.Base)))
    else if data = sHCdots then
      some (Except.ok (some (Message.TariffOption TariffOptionValue.OffPeakHours)))
    else if data = sEJPdot then
      some (Except.ok (some (Message.TariffOption TariffOptionValue.EJP)))
    else if data.take 3 = sBBR then
      some (Except.ok (some (Message.TariffOption TariffOptionValue.Tempo)))
    else some (Except.error (ParseError.FieldError cOPTARIF data))
  else if code = cDEMAIN then
    if data = sDashes then some (Except.ok (some (Message.Tomorrow none)))
    else if data = sBLEU then
      some (Except.ok (some (Message.Tomorrow (some DayColor.Blue))))
    else if data = sBLAN then
      some (Except.ok (some (Message.Tomorrow (some DayColor.White))))
    else if data = sROUG then
      some (Except.ok (some (Message.Tomorrow (some DayColor.Red))))
    else some (Except.error (ParseError.FieldError cDEMAIN data))
  else if code = cPAPP then
    match rustParseUnsigned u16Max data with
    | some v => some (Except.ok (some (Message.ApparentPower v)))
    | none => some (Except.error (ParseError.FieldError cPAPP data))
  else if code = cHHPHC then
    if data = ['A'] then some (Except.ok (some (Message.HHPHC HHPHCValue.A)))
    else if data = ['C'] then some (Except.ok (some (Message.HHPHC HHPHCValue.C)))
    else if data = ['D'] then some (Except.ok (some (Message.HHPHC HHPHCValue.D)))
    else if data = ['E'] then some (Except.ok (some (Message.HHPHC HHPHCValue.E)))
    else if data = ['Y'] then some (Except.ok (some (Message.HHPHC HHPHCValue.Y)))
    else some (Except.error (ParseError.FieldError cHHPHC data))
  else if code = cMOTDETAT ∨ code = cIMAX1 ∨ code = cIMAX2 ∨ code = cIMAX3 ∨
      code = cPPOT ∨ code = cPMAX ∨ code = cISOUSC then
    some (Except.ok none)
  else none

/-- Embedding of `parse_group`: apply the record regex, dispatch on the
captured code and data, and fall back to `GroupError` carrying the whole
record verbatim when the regex does not match. -/
def parse_group (g : Str) : Option (Except ParseError (Option Message)) :=
  match reCaptures g with
  | some (code, data, _) => dispatch code data
  | none => some (Except.error (ParseError.GroupError g))

/-! Helper lemmas. -/

/-- Inversion for `List.findSome?`: a successful search exhibits a list
element on which the function succeeds. -/
theorem findSome?_eq_some_exists {α β : Type} (f : α → Option β) :
    ∀ (l : List α) (b : β), l.findSome? f = some b → ∃ a, a ∈ l ∧ f a = some b := by
  intro l
  induction l with
  | nil => intro b h; simp [List.findSome?] at h
  | cons x xs ih =>
    intro b h
    rw [List.findSome?_cons] at h
    cases hfx : f x with
    | some y =>
      rw [hfx] at h
      exact ⟨x, List.mem_cons_self x xs, hfx.trans h⟩
    | none =>
      rw [hfx] at h
      obtain ⟨a, ha, hfa⟩ := ih b h
      exact ⟨a, List.mem_cons_of_mem x ha, hfa⟩

/-- A successful `captureOne` returns exactly the code it was given. -/
theorem captureOne_eq_some {a g code data : Str} {k : Char}
    (h : captureOne a g = some (code, data, k)) : code = a := by
  unfold captureOne at h
  split at h
  · split at h
    · exact Option.noConfusion h
    · split at h
      · split at h
        · split at h
          · simp only [Option.some.injEq, Prod.mk.injEq] at h
            exact h.1.symm
          · exact Option.noConfusion h
        · exact Option.noConfusion h
      · exact Option.noConfusion h
  · exact Option.noConfusion h

/-- The code captured by the record regex is a whitelisted code. -/
theorem reCaptures_code_mem {g code data : Str} {k : Char}
    (h : reCaptures g = some (code, data, k)) : code ∈ whitelist := by
  obtain ⟨a, ha, hfa⟩ := findSome?_eq_some_exists _ _ _ h
  rw [captureOne_eq_some hfa]
  exact ha

/-- On a successful regex match, `parse_group` is the per-code dispatch. -/
theorem parse_group_eq_dispatch {g code data : Str} {k : Char}
    (hm : reCaptures g = some (code, data, k)) :
    parse_group g = dispatch code data := by
  simp [parse_group, hm]

/-- Value denoted by a digit string, starting from an accumulator. -/
def digitsValFrom (acc : Nat) : Str → Nat
  | [] => acc
  | c :: rest => digitsValFrom (acc * 10 + (c.toNat - 48)) rest

/-- Claim-side value of a plain decimal numeral. -/
def digitsVal (s : Str) : Nat := digitsValFrom 0 s

/-- Unfolding of `digitsValFrom` on the empty list. -/
theorem digitsValFrom_nil (acc : Nat) : digitsValFrom acc [] = acc := rfl

/-- Unfolding of `digitsValFrom` on a cons cell. -/
theorem digitsValFrom_cons (acc : Nat) (c : Char) (rest : Str) :
    digitsValFrom acc (c :: rest) = digitsValFrom (acc * 10 + (c.toNat - 48)) rest := rfl

/-- Unfolding of `parseDigitsAux` on the empty list. -/
theorem parseDigitsAux_nil (maxv acc : Nat) : parseDigitsAux maxv [] acc = some acc := rfl

/-- Unfolding of `parseDigitsAux` on a cons cell. -/
theorem parseDigitsAux_cons (maxv : Nat) (c : Char) (rest : Str) (acc : Nat) :
    parseDigitsAux maxv (c :: rest) acc =
      if c.isDigit then
        if acc * 10 + (c.toNat - 48) ≤ maxv then
          parseDigitsAux maxv rest (acc * 10 + (c.toNat - 48))
        else none
      else none := rfl

/-- The digit accumulator never decreases. -/
theorem le_digitsValFrom (s : Str) : ∀ acc : Nat, acc ≤ digitsValFrom acc s := by
  induction s with
  | nil => intro acc; exact Nat.le_refl acc
  | cons c rest ih =>
    intro acc
    rw [digitsValFrom_cons]
    exact Nat.le_trans (by omega) (ih (acc * 10 + (c.toNat - 48)))

/-- On all-digit input the checked digit loop succeeds exactly when the
denoted value fits the width, and then returns that value. -/
theorem parseDigitsAux_eq_digits (maxv : Nat) :
    ∀ (s : Str), s.all Char.isDigit = true → ∀ acc : Nat, acc ≤ maxv →
      parseDigitsAux maxv s acc =
        if digitsValFrom acc s ≤ maxv then some (digitsValFrom acc s) else none := by
  intro s
  induction s with
  | nil =>
    intro _ acc hacc
    rw [parseDigitsAux_nil, digitsValFrom_nil, if_pos hacc]
  | cons c rest ih =>
    intro hs acc hacc
    simp only [List.all_cons, Bool.and_eq_true] at hs
    rw [parseDigitsAux_cons, digitsValFrom_cons, if_pos hs.1]
    by_cases hv : acc * 10 + (c.toNat - 48) ≤ maxv
    · rw [if_pos hv]
      exact ih hs.2 _ hv
    · have hmono := le_digitsValFrom rest (acc * 10 + (c.toNat - 48))
      rw [if_neg hv, if_neg (by omega)]

/-- On non-empty all-digit input, the Rust unsigned parse succeeds exactly
when the denoted value fits the width, and then returns that value. -/
theorem rustParseUnsigned_digits (maxv : Nat) (s : Str) (hne : s ≠ [])
    (hs : s.all Char.isDigit = true) :
    rustParseUnsigned maxv s =
      if digitsVal s ≤ maxv then some (digitsVal s) else none := by
  cases s with
  | nil => exact absurd rfl hne
  | cons c rest =>
    have hcd : c.isDigit = true := by
      simp only [List.all_cons, Bool.and_eq_true] at hs
      exact hs.1
    have hcplus : ¬(c = '+') := by
      intro h
      rw [h] at hcd
      exact absurd hcd (by decide)
    simp only [rustParseUnsigned, if_neg hcplus]
    exact parseDigitsAux_eq_digits maxv (c :: rest) hs 0 (Nat.zero_le maxv)

/-- Concrete evaluation of Rust numeric parsing: leading zeros are permitted
and a single leading plus sign is accepted. -/
theorem rustParseUnsigned_examples :
    rustParseUnsigned u8Max ['0', '0', '8'] = some 8 ∧
    rustParseUnsigned u8Max ['+', '8'] = some 8 := by decide

/-- Day-color invariant checked on decoded messages: every tariff period
carried by a message has a present (`some`) day color. -/
def dayColorPresent : Message → Bool
  | Message.Index p _ => p.day_color.isSome
  | Message.CurrentTariffPeriod p => p.day_color.isSome
  | _ => true

/-- Claim-side period derivation (C4 wording): the period is derived from the
last four characters of the code, `C` at offset 1 giving off-peak hours and
`P` peak hours, and the character at offset 3 the day color, wrapped in
`some`. -/
def claimPeriod (code : Str) : TarifPeriod :=
  let frag := code.drop (code.length - 4)
  ⟨if frag.get? 1 = some 'C' then HourlyTarifPeriod.OffPeakHours
    else HourlyTarifPeriod.PeakHours,
   if frag.get? 3 = some 'B' then some DayColor.Blue
    else if frag.get? 3 = some 'W' then some DayColor.White
    else some DayColor.Red⟩

/-- Phase number encoded in an `IINST` code (its sixth character). -/
def iinstPhase (code : Str) : Nat :=
  if code = cIINST1 then 1 else if code = cIINST2 then 2 else 3

/-! Evaluation lemmas for `dispatch` at each whitelisted code. -/

/-- Dispatch at `ADCO`. -/
theorem dispatch_adco (data : Str) :
    dispatch cADCO data = some (Except.ok (some Message.ADCO)) := rfl

/-- Dispatch at the six `BBRH*` codes: parse the data as `u32`, then build the
index message for the period encoded by the code suffix. -/
theorem dispatch_bbr (code data : Str)
    (hc : code = cBBRHCJB ∨ code = cBBRHCJW ∨ code = cBBRHCJR ∨
          code = cBBRHPJB ∨ code = cBBRHPJW ∨ code = cBBRHPJR) :
    dispatch code data =
      match rustParseUnsigned u32Max data with
      | some v => some (Except.ok (some (Message.Index (claimPeriod code) v)))
      | none => some (Except.error (ParseError.FieldError code data)) := by
  rcases hc with rfl | rfl | rfl | rfl | rfl | rfl <;> rfl

/-- Dispatch at `PTEC`. -/
theorem dispatch_ptec (data : Str) :
    dispatch cPTEC data =
      (if data = sHCJB then
        some (Except.ok (some (Message.CurrentTariffPeriod
          ⟨HourlyTarifPeriod.OffPeakHours, some DayColor.Blue⟩)))
      else if data = sHCJW then
        some (Except.ok (some (Message.CurrentTariffPeriod
          ⟨HourlyTarifPeriod.OffPeakHours, some DayColor.White⟩)))
      else if data = sHCJR then
        some (Except.ok (some (Message.CurrentTariffPeriod
          ⟨HourlyTarifPeriod.OffPeakHours, some DayColor.Red⟩)))
      else if data = sHPJB then
        some (Except.ok (some (Message.CurrentTariffPeriod
          ⟨HourlyTarifPeriod.PeakHours, some DayColor.Blue⟩)))
      else if data = sHPJW then
        some (Except.ok (some (Message.CurrentTariffPeriod
          ⟨HourlyTarifPeriod.PeakHours, some DayColor.White⟩)))
      else if data = sHPJR then
        some (Except.ok (some (Message.CurrentTariffPeriod
          ⟨HourlyTarifPeriod.PeakHours, some DayColor.Red⟩)))
      else some (Except.error (ParseError.FieldError cPTEC data))) := rfl

/-- Dispatch at the three `IINST` codes: parse the data as `u8` and attach
the phase digit taken from the code. -/
theorem dispatch_iinst (code data : Str)
    (hc : code = cIINST1 ∨ code = cIINST2 ∨ code = cIINST3) :
    dispatch code data =
      match rustParseUnsigned u8Max data with
      | some level =>
        some (Except.ok (some (Message.InstantaneousPower (iinstPhase code) level)))
      | none => some (Except.error (ParseError.FieldError code data)) := by
  rcases hc with rfl | rfl | rfl <;> rfl

/-- Dispatch at `OPTARIF`. -/
theorem dispatch_optarif (data : Str) :
    dispatch cOPTARIF data =
      (if data = sBASE then
        some (Except.ok (some (Message.TariffOption TariffOptionValue.Base)))
      else if data = sHCdots then
        some (Except.ok (some (Message.TariffOption TariffOptionValue.OffPeakHours)))
      else if data = sEJPdot then
        some (Except.ok (some (Message.TariffOption TariffOptionValue.EJP)))
      else if data.take 3 = sBBR then
        some (Except.ok (some (Message.TariffOption TariffOptionValue.Tempo)))
      else some (Except.error (ParseError.FieldError cOPTARIF data))) := rfl

/-- Dispatch at `DEMAIN`. -/
theorem dispatch_demain (data : Str) :
    dispatch cDEMAIN data =
      (if data = sDashes then some (Except.ok (some (Message.Tomorrow none)))
      else if data = sBLEU then
        some (Except.ok (some (Message.Tomorrow (some DayColor.Blue))))
      else if data = sBLAN then
        some (Except.ok (some (Message.Tomorrow (some DayColor.White))))
      else if data = sROUG then
        some (Except.ok (some (Message.Tomorrow (some DayColor.Red))))
      else some (Except.error (ParseError.FieldError cDEMAIN data))) := rfl

/-- Dispatch at `PAPP`: parse the data as `u16`. -/
theorem dispatch_papp (data : Str) :
    dispatch cPAPP data =
      match rustParseUnsigned u16Max data with
      | some v => some (Except.ok (some (Message.ApparentPower v)))
      | none => some (Except.error (ParseError.FieldError cPAPP data)) := rfl

/-- Dispatch at `HHPHC`. -/
theorem dispatch_hhphc (data : Str) :
    dispatch cHHPHC data =
      (if data = ['A'] then some (Except.ok (some (Message.HHPHC HHPHCValue.A)))
      else if data = ['C'] then some (Except.ok (some (Message.HHPHC HHPHCValue.C)))
      else if data = ['D'] then some (Except.ok (some (Message.HHPHC HHPHCValue.D)))
      else if data = ['E'] then some (Except.ok (some (Message.HHPHC HHPHCValue.E)))
      else if data = ['Y'] then some (Except.ok (some (Message.HHPHC HHPHCValue.Y)))
      else some (Except.error (ParseError.FieldError cHHPHC data))) := rfl

/-- Dispatch at the seven recognized-but-ignored codes. -/
theorem dispatch_ignored (code data : Str)
    (hc : code = cMOTDETAT ∨ code = cIMAX1 ∨ code = cIMAX2 ∨ code = cIMAX3 ∨
          code = cPPOT ∨ code = cPMAX ∨ code = cISOUSC) :
    dispatch code data = some (Except.ok none) := by
  rcases hc with rfl | rfl | rfl | rfl | rfl | rfl | rfl <;> rfl

/-- Shape of every dispatch result on a whitelisted code: a `FieldError`
carrying the code and data, the recognized-but-ignored result, or a message
satisfying the day-color invariant.  In particular the dispatch never
produces `none` (no panic), never a `GroupError`, and never one of the two
period errors. -/
theorem dispatch_shape (code : Str) (hcode : code ∈ whitelist) (data : Str) :
    dispatch code data = some (Except.error (ParseError.FieldError code data)) ∨
    dispatch code data = some (Except.ok none) ∨
    ∃ m, dispatch code data = some (Except.ok (some m)) ∧ dayColorPresent m = true := by
  simp only [whitelist, List.mem_cons, List.not_mem_nil, or_false] at hcode
  rcases hcode with rfl | rfl | rfl | rfl | rfl | rfl | rfl | rfl | rfl | rfl | rfl | rfl |
    rfl | rfl | rfl | rfl | rfl | rfl | rfl | rfl | rfl | rfl | rfl | rfl | rfl
  · exact Or.inr (Or.inr ⟨Message.ADCO, dispatch_adco data, rfl⟩)
  · rw [dispatch_optarif]
    repeat' split
    all_goals first
      | exact Or.inl rfl
      | exact Or.inr (Or.inr ⟨_, rfl, rfl⟩)
  · exact Or.inr (Or.inl (dispatch_ignored _ data (by simp)))
  · rw [dispatch_bbr _ data (by simp)]
    cases rustParseUnsigned u32Max data with
    | some v => exact Or.inr (Or.inr ⟨_, rfl, rfl⟩)
    | none => exact Or.inl rfl
  · rw [dispatch_bbr _ data (by simp)]
    cases rustParseUnsigned u32Max data with
    | some v => exact Or.inr (Or.inr ⟨_, rfl, rfl⟩)
    | none => exact Or.inl rfl
  · rw [dispatch_bbr _ data (by simp)]
    cases rustParseUnsigned u32Max data with
    | some v => exact Or.inr (Or.inr ⟨_, rfl, rfl⟩)
    | none => exact Or.inl rfl
  · rw [dispatch_bbr _ data (by simp)]
    cases rustParseUnsigned u32Max data with
    | some v => exact Or.inr (Or.inr ⟨_, rfl, rfl⟩)
    | none => exact Or.inl rfl
  · rw [dispatch_bbr _ data (by simp)]
    cases rustParseUnsigned u32Max data with
    | some v => exact Or.inr (Or.inr ⟨_, rfl, rfl⟩)
    | none => exact Or.inl rfl
  · rw [dispatch_bbr _ data (by simp)]
    cases rustParseUnsigned u32Max data with
    | some v => exact Or.inr (Or.inr ⟨_, rfl, rfl⟩)
    | none => exact Or.inl rfl
  · exact Or.inr (Or.inl (dispatch_ignored _ data (by simp)))
  · exact Or.inr (Or.inl (dispatch_ignored _ data (by simp)))
  · exact Or.inr (Or.inl (dispatch_ignored _ data (by simp)))
  · rw [dispatch_ptec]
    repeat' split
    all_goals first
      | exact Or.inl rfl
      | exact Or.inr (Or.inr ⟨_, rfl, rfl⟩)
  · rw [dispatch_demain]
    repeat' split
    all_goals first
      | exact Or.inl rfl
      | exact Or.inr (Or.inr ⟨_, rfl, rfl⟩)
  · rw [dispatch_iinst _ data (by simp)]
    cases rustParseUnsigned u8Max data with
    | some v => exact Or.inr (Or.inr ⟨_, rfl, rfl⟩)
    | none => exact Or.inl rfl
  · rw [dispatch_iinst _ data (by simp)]
    cases rustParseUnsigned u8Max data with
    | some v => exact Or.inr (Or.inr ⟨_, rfl, rfl⟩)
    | none => exact Or.inl rfl
  · rw [dispatch_iinst _ data (by simp)]
    cases rustParseUnsigned u8Max data with
    | some v => exact Or.inr (Or.inr ⟨_, rfl, rfl⟩)
    | none => exact Or.inl rfl
  · exact Or.inr (Or.inl (dispatch_ignored _ data (by simp)))
  · exact Or.inr (Or.inl (dispatch_ignored _ data (by simp)))
  · exact Or.inr (Or.inl (dispatch_ignored _ data (by simp)))
  · exact Or.inr (Or.inl (dispatch_ignored _ data (by simp)))
  · rw [dispatch_papp]
    cases rustParseUnsigned u16Max data with
    | some v => exact Or.inr (Or.inr ⟨_, rfl, rfl⟩)
    | none => exact Or.inl rfl
  · rw [dispatch_hhphc]
    repeat' split
    all_goals first
      | exact Or.inl rfl
      | exact Or.inr (Or.inr ⟨_, rfl, rfl⟩)
  · exact Or.inr (Or.inl (dispatch_ignored _ data (by simp)))
  · exact Or.inr (Or.inl (dispatch_ignored _ data (by simp)))

/-- Shape of every `parse_group` result: `GroupError` carrying the record
itself, a `FieldError`, the recognized-but-ignored result, or a message
satisfying the day-color invariant.  The result is never `none` (no panic)
and never one of the two period errors. -/
theorem parse_group_shape (g : Str) :
    parse_group g = some (Except.error (ParseError.GroupError g)) ∨
    (∃ c d, parse_group g = some (Except.error (ParseError.FieldError c d))) ∨
    parse_group g = some (Except.ok none) ∨
    ∃ m, parse_group g = some (Except.ok (some m)) ∧ dayColorPresent m = true := by
  cases hr : reCaptures g with
  | none =>
    left
    simp [parse_group, hr]
  | some t =>
    obtain ⟨code, data, k⟩ := t
    have hmem := reCaptures_code_mem hr
    have hg : parse_group g = dispatch code data := parse_group_eq_dispatch hr
    rcases dispatch_shape code hmem data with h | h | ⟨m, h, hdc⟩
    · exact Or.inr (Or.inl ⟨code, data, hg.trans h⟩)
    · exact Or.inr (Or.inr (Or.inl (hg.trans h)))
    · exact Or.inr (Or.inr (Or.inr ⟨m, hg.trans h, hdc⟩))

/-! Claim theorems. -/

/-- C1: the claim states that every record `CODE SEP DATA SEP CTRL` with a
whitelisted code and both separator bytes equal to the horizontal tab (0x09)
is accepted by `parse_group` — that the separator byte recognized by the
decoder is the wire-format tab.  On the code this fails: the separator
character class is written `[ U+0009]` in the regex, which denotes the set of
literal characters space, `U`, `+`, `0` and `9`, not the tab code point, so
the tab-separated record `ADCO<TAB>020830022493<TAB>8` is rejected with
`GroupError` while the identical record with space separators is accepted;
the tab is not in the decoder's separator class at all. -/
theorem c1_tab_separated_record_rejected :
    parse_group "ADCO\t020830022493\t8".toList =
      some (Except.error (ParseError.GroupError "ADCO\t020830022493\t8".toList)) ∧
    parse_group "ADCO 020830022493 8".toList = some (Except.ok (some Message.ADCO)) ∧
    sepChar '\t' = false := by decide

/-- C2: when a record does not match the decoder's `CODE SEP DATA SEP CTRL`
shape end-to-end — including every record whose code is outside the
whitelist, since the regex alternation only lists whitelisted codes —
`parse_group` returns `GroupError` carrying the original record verbatim. -/
theorem c2_unmatched_record_group_error_verbatim (g : Str)
    (h : reCaptures g = none) :
    parse_group g = some (Except.error (ParseError.GroupError g)) := by
  simp [parse_group, h]

/-- Witness for C2 at the record `XXX AAA`, whose code is unrecognized. -/
theorem c2_unmatched_record_group_error_verbatim_witness :
    reCaptures "XXX AAA".toList = none ∧
    parse_group "XXX AAA".toList =
      some (Except.error (ParseError.GroupError "XXX AAA".toList)) :=
  ⟨by decide, c2_unmatched_record_group_error_verbatim _ (by decide)⟩

/-- C3 counterexample: the claim says numeric data with a leading `+`, for
example `+8`, is rejected with `FieldError`; but Rust's unsigned integer
parse accepts one leading `+`, so the record `IINST1 +8 X` decodes to the
value 8 instead of failing. -/
theorem c3_counterexample_leading_plus_accepted :
    parse_group "IINST1 +8 X".toList =
      some (Except.ok (some (Message.InstantaneousPower 1 8))) ∧
    parse_group "IINST1 +8 X".toList ≠
      some (Except.error (ParseError.FieldError cIINST1 ['+', '8'])) := by decide

/-- C3 amended: every numeric field (IINST1/2/3, PAPP, BBRH* index) parses
its data with Rust's unsigned-decimal grammar — an optional single leading
`+` followed by one or more decimal digits whose value fits the target
width.  Leading zeros are permitted (`008` yields 8), a leading `+` is
accepted (`+8` yields 8, contrary to the original claim), and any other
non-digit content or out-of-range value gives `FieldError` carrying the code
and data. -/
theorem c3_amended_numeric_fields_rust_grammar (g code data : Str) (k : Char)
    (hm : reCaptures g = some (code, data, k)) :
    (code = cIINST1 ∨ code = cIINST2 ∨ code = cIINST3 →
      parse_group g = some (match rustParseUnsigned u8Max data with
        | some v => Except.ok (some (Message.InstantaneousPower (iinstPhase code) v))
        | none => Except.error (ParseError.FieldError code data))) ∧
    (code = cPAPP →
      parse_group g = some (match rustParseUnsigned u16Max data with
        | some v => Except.ok (some (Message.ApparentPower v))
        | none => Except.error (ParseError.FieldError code data))) ∧
    (code = cBBRHCJB ∨ code = cBBRHCJW ∨ code = cBBRHCJR ∨
     code = cBBRHPJB ∨ code = cBBRHPJW ∨ code = cBBRHPJR →
      parse_group g = some (match rustParseUnsigned u32Max data with
        | some v => Except.ok (some (Message.Index (claimPeriod code) v))
        | none => Except.error (ParseError.FieldError code data))) ∧
    rustParseUnsigned u8Max ['0', '0', '8'] = some 8 ∧
    rustParseUnsigned u8Max ['+', '8'] = some 8 := by
  have hg := parse_group_eq_dispatch hm
  refine ⟨?_, ?_, ?_, rustParseUnsigned_examples.1, rustParseUnsigned_examples.2⟩
  · intro hc
    rw [hg, dispatch_iinst code data hc]
    cases hx : rustParseUnsigned u8Max data <;> rfl
  · intro hc
    subst hc
    rw [hg, dispatch_papp]
    cases hx : rustParseUnsigned u16Max data <;> rfl
  · intro hc
    rw [hg, dispatch_bbr code data hc]
    cases hx : rustParseUnsigned u32Max data <;> rfl

/-- Witness for C3 amended at the record `IINST2 +8 X`. -/
theorem c3_amended_numeric_fields_rust_grammar_witness :
    parse_group "IINST2 +8 X".toList =
      some (Except.ok (some (Message.InstantaneousPower 2 8))) := by
  have h := (c3_amended_numeric_fields_rust_grammar "IINST2 +8 X".toList cIINST2
      ['+', '8'] 'X' (by decide)).1 (Or.inr (Or.inl rfl))
  rw [h]
  decide

/-- C4: for a matched record bearing one of the six `BBRH*` codes, data that
parses as an unsigned decimal in `0..=u32::MAX` yields `Ok(Some(Index))`
whose period is derived from the last four characters of the code (`C` →
off-peak hours / `P` → peak hours at offset 1, `B`/`W`/`R` → blue / white /
red at offset 3, the day color wrapped in `some`), and data that does not
parse as such a number yields `FieldError` carrying the code and data. -/
theorem c4_bbr_index_messages (g code data : Str) (k : Char)
    (hm : reCaptures g = some (code, data, k))
    (hc : code = cBBRHCJB ∨ code = cBBRHCJW ∨ code = cBBRHCJR ∨
          code = cBBRHPJB ∨ code = cBBRHPJW ∨ code = cBBRHPJR) :
    (∀ v, rustParseUnsigned u32Max data = some v →
      parse_group g = some (Except.ok (some (Message.Index (claimPeriod code) v)))) ∧
    (rustParseUnsigned u32Max data = none →
      parse_group g = some (Except.error (ParseError.FieldError code data))) := by
  have hg := parse_group_eq_dispatch hm
  rw [hg, dispatch_bbr code data hc]
  constructor
  · intro v hv
    rw [hv]
  · intro hv
    rw [hv]

/-- Witness for C4: `decode("BBRHPJR 007659709 %")` produces the index
message with peak hours, red day color and value 7659709. -/
theorem c4_bbr_index_messages_witness :
    parse_group "BBRHPJR 007659709 %".toList =
      some (Except.ok (some (Message.Index
        ⟨HourlyTarifPeriod.PeakHours, some DayColor.Red⟩ 7659709))) := by
  have h := (c4_bbr_index_messages "BBRHPJR 007659709 %".toList cBBRHPJR
      "007659709".toList '%' (by decide)
      (Or.inr (Or.inr (Or.inr (Or.inr (Or.inr rfl)))))).1 7659709 (by decide)
  rw [h]
  decide

/-- C5: on a 4-character fragment, `parse_period` returns
`OffPeakHoursError` carrying that very fragment when the character at offset
1 is neither `C` nor `P`; otherwise `DayColorError` carrying that fragment
when the character at offset 3 is none of `B`, `W`, `R`; otherwise the
period with hour `C` → off-peak / `P` → peak and day color `B`/`W`/`R` →
blue / white / red wrapped in `some`. -/
theorem c5_parse_period_fragment (a b c d : Char) :
    parse_period [a, b, c, d] =
      (if b ≠ 'C' ∧ b ≠ 'P' then
        some (Except.error (ParseError.OffPeakHoursError [a, b, c, d]))
      else if d ≠ 'B' ∧ d ≠ 'W' ∧ d ≠ 'R' then
        some (Except.error (ParseError.DayColorError [a, b, c, d]))
      else
        some (Except.ok
          ⟨if b = 'C' then HourlyTarifPeriod.OffPeakHours else HourlyTarifPeriod.PeakHours,
           some (if d = 'B' then DayColor.Blue
             else if d = 'W' then DayColor.White else DayColor.Red)⟩)) := by
  have h1 : parse_period [a, b, c, d] =
      (if b = 'C' then parsePeriodDay [a, b, c, d] HourlyTarifPeriod.OffPeakHours
       else if b = 'P' then parsePeriodDay [a, b, c, d] HourlyTarifPeriod.PeakHours
       else some (Except.error (ParseError.OffPeakHoursError [a, b, c, d]))) := rfl
  have h2 : ∀ hr, parsePeriodDay [a, b, c, d] hr =
      (if d = 'B' then some (Except.ok ⟨hr, some DayColor.Blue⟩)
       else if d = 'W' then some (Except.ok ⟨hr, some DayColor.White⟩)
       else if d = 'R' then some (Except.ok ⟨hr, some DayColor.Red⟩)
       else some (Except.error (ParseError.DayColorError [a, b, c, d]))) := fun hr => rfl
  rw [h1]
  by_cases hbC : b = 'C' <;> by_cases hbP : b = 'P' <;>
    by_cases hdB : d = 'B' <;> by_cases hdW : d = 'W' <;> by_cases hdR : d = 'R' <;>
    simp_all [h2]

/-- Sanity examples for the period sub-parser on the fragments exercised by
the source tests. -/
theorem period_fragment_examples :
    parse_period "HAJB".toList =
      some (Except.error (ParseError.OffPeakHoursError "HAJB".toList)) ∧
    parse_period "HCJT".toList =
      some (Except.error (ParseError.DayColorError "HCJT".toList)) ∧
    parse_period "HPJW".toList =
      some (Except.ok ⟨HourlyTarifPeriod.PeakHours, some DayColor.White⟩) := by decide

/-- C6: for a matched `PAPP` record whose data is a plain decimal numeral, a
value above 65535 (`u16` overflow) is rejected with `FieldError` — never
truncated or wrapped — and a value in `0..=65535` yields
`Ok(Some(ApparentPower))` carrying exactly that value. -/
theorem c6_papp_overflow_rejected (g data : Str) (k : Char)
    (hm : reCaptures g = some (cPAPP, data, k))
    (hne : data ≠ []) (hdig : data.all Char.isDigit = true) :
    (65535 < digitsVal data →
      parse_group g = some (Except.error (ParseError.FieldError cPAPP data))) ∧
    (digitsVal data ≤ 65535 →
      parse_group g = some (Except.ok (some (Message.ApparentPower (digitsVal data))))) := by
  have hg := parse_group_eq_dispatch hm
  have hr := rustParseUnsigned_digits u16Max data hne hdig
  rw [hg, dispatch_papp, hr]
  constructor
  · intro hlt
    rw [if_neg (by simp only [u16Max]; omega)]
  · intro hle
    rw [if_pos (by simp only [u16Max]; omega)]

/-- Witness for C6 at the overflowing record `PAPP 70000 X`. -/
theorem c6_papp_overflow_rejected_witness :
    parse_group "PAPP 70000 X".toList =
      some (Except.error (ParseError.FieldError cPAPP "70000".toList)) := by
  have h := (c6_papp_overflow_rejected "PAPP 70000 X".toList "70000".toList 'X'
      (by decide) (by decide) (by decide)).1 (by decide)
  exact h

/-- C7: a matched record bearing one of the seven recognized-but-ignored
codes decodes to `Ok(None)` regardless of the data: an outcome that is not
an error of any kind and not `Ok(Some(_))`, hence in particular distinct
from the `GroupError` given to unrecognized codes. -/
theorem c7_ignored_codes_ok_none (g code data : Str) (k : Char)
    (hm : reCaptures g = some (code, data, k))
    (hc : code = cMOTDETAT ∨ code = cIMAX1 ∨ code = cIMAX2 ∨ code = cIMAX3 ∨
          code = cPPOT ∨ code = cPMAX ∨ code = cISOUSC) :
    parse_group g = some (Except.ok none) ∧
    (∀ e : ParseError, parse_group g ≠ some (Except.error e)) ∧
    (∀ m : Message, parse_group g ≠ some (Except.ok (some m))) := by
  have hg := parse_group_eq_dispatch hm
  have hd := dispatch_ignored code data hc
  refine ⟨hg.trans hd, ?_, ?_⟩
  · intro e he
    rw [hg, hd] at he
    simp at he
  · intro m hme
    rw [hg, hd] at hme
    simp at hme

/-- Witness for C7 at the record `MOTDETAT 000000 B`. -/
theorem c7_ignored_codes_ok_none_witness :
    parse_group "MOTDETAT 000000 B".toList = some (Except.ok none) :=
  (c7_ignored_codes_ok_none "MOTDETAT 000000 B".toList cMOTDETAT
    "000000".toList 'B' (by decide) (Or.inl rfl)).1

/-- C8: whenever the decoder produces a message carrying a `TarifPeriod` (an
`Index` or a `CurrentTariffPeriod`), that period's `day_color` field is
`some`; a `none` day color never occurs inside a tariff period produced by
`parse_group` (the `none` case is used only by the `Tomorrow` variant). -/
theorem c8_day_color_always_present (g : Str) (m : Message)
    (h : parse_group g = some (Except.ok (some m))) :
    (∀ p v, m = Message.Index p v → ∃ c, p.day_color = some c) ∧
    (∀ p, m = Message.CurrentTariffPeriod p → ∃ c, p.day_color = some c) := by
  have hdc : dayColorPresent m = true := by
    rcases parse_group_shape g with h1 | ⟨c, d, h1⟩ | h1 | ⟨m2, h1, hdc2⟩
    · rw [h] at h1; simp at h1
    · rw [h] at h1; simp at h1
    · rw [h] at h1; simp at h1
    · rw [h] at h1
      simp only [Option.some.injEq, Except.ok.injEq] at h1
      rw [h1]
      exact hdc2
  constructor
  · intro p v hm2
    subst hm2
    simp only [dayColorPresent, Option.isSome_iff_exists] at hdc
    exact hdc
  · intro p hm2
    subst hm2
    simp only [dayColorPresent, Option.isSome_iff_exists] at hdc
    exact hdc

/-- Witness for C8 at the record `PTEC HCJB S`. -/
theorem c8_day_color_always_present_witness :
    ∃ c, (⟨HourlyTarifPeriod.OffPeakHours, some DayColor.Blue⟩ : TarifPeriod).day_color =
      some c :=
  (c8_day_color_always_present "PTEC HCJB S".toList
    (Message.CurrentTariffPeriod ⟨HourlyTarifPeriod.OffPeakHours, some DayColor.Blue⟩)
    (by decide)).2 _ rfl

/-- C9: `parse_group` is total on every caller-supplied record, including
the empty one: in the panic-modelling embedding its result is always `some`,
so the `panic!` arm for a whitelisted-but-unhandled code and every `unwrap`
inside the `IINST` and period handling are unreachable. -/
theorem c9_parse_group_total_no_panic (g : Str) : (parse_group g).isSome = true := by
  rcases parse_group_shape g with h | ⟨c, d, h⟩ | h | ⟨m, h, _⟩ <;> rw [h] <;> rfl

/-- C10: the two period error variants are dead at the decoder interface:
for no input does `parse_group` return `OffPeakHoursError` or
`DayColorError`, because the whitelist regex only admits `BBRH` codes whose
suffix already satisfies the period grammar `H[CP]J[BWR]`, so `parse_period`
always succeeds when called from `parse_group`. -/
theorem c10_period_errors_unreachable (g s : Str) :
    parse_group g ≠ some (Except.error (ParseError.OffPeakHoursError s)) ∧
    parse_group g ≠ some (Except.error (ParseError.DayColorError s)) := by
  rcases parse_group_shape g with h | ⟨c, d, h⟩ | h | ⟨m, h, _⟩ <;>
    exact ⟨by rw [h]; simp, by rw [h]; simp⟩

end PitInfo
